import Mathlib

/-!
Verification of the SpatiaEngine AOI-resolution engine and pipeline orchestration.

Shallow embedding of the relevant parts of the source tree:
  * `src/core/aoi/aoi.py` — zone selection, tile-code grammar, SNRC/KML AOI
    definition and finalization;
  * `src/core/aoi/aoi_handler.py` — the stricter bounds-to-zone variant;
  * `src/core/pipeline/pipeline_manager.py` — AOI layer emission and the
    run-summary display ordering;
  * `src/core/datasources/mnt_lidar.py` — tile download verification;
  * `src/core/processing/vector_processor.py` — vector normalization;
  * `src/core/utils/error_handler.py` — the `handle_errors` decorator.

Python strings are modelled as `List Char` (`PyStr`); machine floats carried in
bounds tuples are modelled as rationals (only comparisons and midpoint
arithmetic occur); exceptions are modelled with `Except`; external collaborator
calls (pyproj, geopandas I/O, HTTP) are oracle fields of explicit environment
structures, so that every control path of the embedded code is visible.
-/

/-- Python `str` modelled as a list of characters. -/
abbrev PyStr := List Char

/-- ASCII uppercasing of one character, the behaviour of Python `str.upper`
on the alphanumeric tile codes and CRS strings this program manipulates. -/
def charUpper (c : Char) : Char :=
  if 'a' ≤ c ∧ c ≤ 'z' then Char.ofNat (c.toNat - 32) else c

/-- Python `str.upper` on the character-list model. -/
def pyUpper (s : PyStr) : PyStr := s.map charUpper

/-- Geographic bounding box `(minx, miny, maxx, maxy)` in lon/lat, the tuple
passed to the zone selectors (floats modelled as rationals). -/
structure Bounds where
  minx : ℚ
  miny : ℚ
  maxx : ℚ
  maxy : ℚ
deriving DecidableEq, Repr

/-- Center longitude `(bounds[0] + bounds[2]) / 2` (aoi.py line 79). -/
def centerLon (b : Bounds) : ℚ := (b.minx + b.maxx) / 2

/-- Longitude band of MTM zone 7: `-72 <= center_lon < -69` (aoi.py line 84). -/
def inBand7 (c : ℚ) : Prop := -72 ≤ c ∧ c < -69

/-- Longitude band of MTM zone 8: `-75 <= center_lon < -72` (aoi.py line 86). -/
def inBand8 (c : ℚ) : Prop := -75 ≤ c ∧ c < -72

/-- Longitude band of MTM zone 9: `-78 <= center_lon < -75` (aoi.py line 88). -/
def inBand9 (c : ℚ) : Prop := -78 ≤ c ∧ c < -75

/-- Longitude band of MTM zone 10: `-81 <= center_lon < -78` (aoi.py line 90). -/
def inBand10 (c : ℚ) : Prop := -81 ≤ c ∧ c < -78

instance : DecidablePred inBand7 := fun _ => instDecidableAnd

instance : DecidablePred inBand8 := fun _ => instDecidableAnd

instance : DecidablePred inBand9 := fun _ => instDecidableAnd

instance : DecidablePred inBand10 := fun _ => instDecidableAnd

/-- `Aoi.get_mtm_zone_from_bounds` (aoi.py lines 67-94): map the bounds'
center longitude (`centerLon`, the `center_lon` local of the source) to an
MTM zone EPSG code, defaulting to zone 8. -/
def get_mtm_zone_from_bounds (bounds : Bounds) : String :=
  if -72 ≤ centerLon bounds ∧ centerLon bounds < -69 then "32187"
  else if -75 ≤ centerLon bounds ∧ centerLon bounds < -72 then "32188"
  else if -78 ≤ centerLon bounds ∧ centerLon bounds < -75 then "32189"
  else if -81 ≤ centerLon bounds ∧ centerLon bounds < -78 then "32190"
  else "32188"

/-- The directional suffixes accepted by `Aoi._is_code_20k` (aoi.py line 129):
`["NE", "NO", "SE", "SO", "NW", "SW"]`, the four quadrant names in their
French (`NO`/`SO`) and English (`NW`/`SW`) spellings, `NE` and `SE` coinciding. -/
def suffixes20k : List PyStr :=
  [['N', 'E'], ['N', 'O'], ['S', 'E'], ['S', 'O'], ['N', 'W'], ['S', 'W']]

/-- Python `code_upper[-2:]`: the last two characters. -/
def last2 (s : PyStr) : PyStr := s.drop (s.length - 2)

/-- The 50k parent-prefix shape test of `Aoi._is_code_20k` (aoi.py lines
133-134): 5 characters `digit digit alpha digit digit`, or 6 characters
`digit digit digit alpha digit digit`. -/
def isValid50kShape (p : PyStr) : Bool :=
  match p with
  | [a, b, c, d, e] => a.isDigit && b.isDigit && c.isAlpha && d.isDigit && e.isDigit
  | [a, b, c, d, e, f] =>
      a.isDigit && b.isDigit && c.isDigit && d.isAlpha && e.isDigit && f.isDigit
  | _ => false

/-- `Aoi._is_code_20k` (aoi.py lines 126-136).  The Python guards
(`len in [7, 8]`, suffix membership, then the prefix-shape check) are written
as one Boolean conjunction; all three tests are total, so the value agrees
with the short-circuited original. -/
def isCode20k (code : PyStr) : Bool :=
  ((pyUpper code).length == 7 || (pyUpper code).length == 8)
    && decide (last2 (pyUpper code) ∈ suffixes20k)
    && isValid50kShape ((pyUpper code).take ((pyUpper code).length - 2))

/-- `Aoi._normalize_50k_code_for_20k_index` (aoi.py lines 138-143): uppercase,
then strip the leading zero of a 6-character code starting with `'0'`. -/
def normalize_50k_code_for_20k_index (code50k : PyStr) : PyStr :=
  let cu := pyUpper code50k
  if cu.length = 6 ∧ cu.take 1 = ['0'] then cu.drop 1 else cu

/-- The parent-code branch of `Aoi.define_from_snrc_codes` (aoi.py lines
195-200): keep exactly the fine-index rows (their `feuillet` code strings)
whose uppercased code starts with the normalized 50k prefix and whose length
is the prefix length plus 2. -/
def resolveParentTiles (index : List PyStr) (code : PyStr) : List PyStr :=
  let pfx := normalize_50k_code_for_20k_index code
  index.filter (fun row => pfx.isPrefixOf (pyUpper row) && row.length == pfx.length + 2)

/-- Python `str.upper` on the `String` wrapper (used where the source compares
CRS strings case-insensitively). -/
def pyUpperS (s : String) : String := ⟨pyUpper s.data⟩

/-- Abstract input of `process_vector_data` (vector_processor.py lines 19-207):
the on-disk input file, its feature table, and the outcome of each external
geometry/IO operation the function performs, one oracle field per operation.
`crs = none` models an input with no declared CRS (the source then assumes
EPSG:4326); `reprojOk` is whether `to_crs` succeeds; `aoiValid`/`aoiRepairOk`
are the validity of the AOI geometry and of its `buffer(0)` repair; `clipOk`
is the first `gpd.clip` attempt, `retryOk` the retry after `buffer(0)` on the
features; `clippedCount`/`retryClippedCount` the clip result sizes; `writeOk`
whether `to_file` into the combined GeoPackage succeeds. -/
structure VecInput where
  fileExists : Bool
  featureCount : Nat
  crs : Option String
  reprojOk : Bool
  aoiValid : Bool
  aoiRepairOk : Bool
  clipOk : Bool
  retryOk : Bool
  clippedCount : Nat
  retryClippedCount : Nat
  writeOk : Bool
deriving DecidableEq, Repr

/-- `process_vector_data` (vector_processor.py lines 19-207).  First component
is the returned triple `(success, count_before, count_after)` (with `-1` as the
source's sentinel); second component records whether a layer was written to
the combined output store.  Reprojection preserves the feature count, so
`count_before_clip_for_summary` equals the initial read count on every path
that reaches clipping. -/
def process_vector_data (inp : VecInput) (target_crs_mtm : String) :
    (Bool × Int × Int) × Bool :=
  if ¬ inp.fileExists then ((false, -1, -1), false)
  else if inp.featureCount = 0 then ((true, 0, 0), false)
  else
    let srcCrs := inp.crs.getD "EPSG:4326"
    let needReproj := pyUpperS srcCrs ≠ pyUpperS target_crs_mtm
    if needReproj ∧ ¬ inp.reprojOk then ((false, (inp.featureCount : Int), -1), false)
    else
      let countBefore : Int := (inp.featureCount : Int)
      if ¬ inp.aoiValid ∧ ¬ inp.aoiRepairOk then ((false, countBefore, -1), false)
      else if inp.clipOk then
        if inp.writeOk then ((true, countBefore, (inp.clippedCount : Int)), true)
        else ((false, countBefore, (inp.clippedCount : Int)), false)
      else if inp.retryOk then
        if inp.writeOk then ((true, countBefore, (inp.retryClippedCount : Int)), true)
        else ((false, countBefore, (inp.retryClippedCount : Int)), false)
      else ((false, countBefore, -1), false)

/-- One tile download attempted by `MNTLiDARSource.fetch_data` (mnt_lidar.py
lines 114-186).  `urlOk` is the presence of a non-empty feuillet name and
folder URL in the index row; `cacheHit` whether the persistent cache already
holds the file; `httpOk` whether `requests.get` and `raise_for_status`
succeed (header-parse failures fold in here: the surrounding `except` treats
them alike); `writeOk` whether the chunked write loop completes;
`contentLength` the HTTP `content-length` header (`none` when absent, parsed
with default 0 at line 144); `receivedLen` the bytes that reach the temp
file. -/
structure TileJob where
  feuillet : String
  urlOk : Bool
  cacheHit : Bool
  httpOk : Bool
  writeOk : Bool
  contentLength : Option Nat
  receivedLen : Nat
deriving DecidableEq, Repr

/-- A fetched file location: the per-run temp directory or the persistent
cache directory (the two `os.path.join` targets of the source), with the
file name. -/
inductive TifPath where
  | temp : String → TifPath
  | cache : String → TifPath
deriving DecidableEq, Repr

/-- `f"MNT_{feuillet_name}.tif"` (mnt_lidar.py line 126). -/
def tifFilename (t : TileJob) : String := "MNT_" ++ t.feuillet ++ ".tif"

/-- The per-tile download of mnt_lidar.py lines 132-186: the cache branch
returns the cached path, the download branch writes the temp file and then
verifies `total_size != 0 and getsize != total_size`, deleting the partial
file and skipping the tile on mismatch; every exception in the branch is
caught by the per-tile `except` (the tile is skipped, a partial file from a
failed write loop remains on disk).  First component: the path appended to
`local_tif_paths` (none when the tile is skipped); second: whether the temp
file exists afterwards. -/
def tileFetchResult (cacheEnabled : Bool) (t : TileJob) : Option TifPath × Bool :=
  if ¬ t.urlOk then (none, false)
  else if cacheEnabled ∧ t.cacheHit then (some (TifPath.cache (tifFilename t)), false)
  else if ¬ t.httpOk then (none, false)
  else if ¬ t.writeOk then (none, true)
  else if t.contentLength.getD 0 ≠ 0 ∧ t.receivedLen ≠ t.contentLength.getD 0 then
    (none, false)
  else (some (TifPath.temp (tifFilename t)), true)

/-- `MNTLiDARSource.fetch_data` (mnt_lidar.py lines 72-193): `none` when the
source is disabled, its index configuration incomplete, the AOI carries no
sub-tile manifest, or no tile survived verification; otherwise the list of
fetched paths.  Total by construction: the `handle_errors` decorator and the
per-tile `except` convert every raised exception into a skipped tile or a
`none` return. -/
def fetch_data (enabled configOk cacheEnabled : Bool) (tiles : List TileJob) :
    Option (List TifPath) :=
  if ¬ enabled then none
  else if ¬ configOk then none
  else if tiles.isEmpty then none
  else if (tiles.filterMap (fun t => (tileFetchResult cacheEnabled t).1)).isEmpty then none
  else some (tiles.filterMap (fun t => (tileFetchResult cacheEnabled t).1))

/-- Keys of `VALID_MTM_CRS` (aoi.py lines 30-41). -/
def VALID_MTM_CODES : List String :=
  ["32181", "32182", "32183", "32184", "32185", "32186", "32187", "32188", "32189", "32190"]

/-- Oracle interface to the external pyproj/geopandas calls made while
finalizing an AOI.  `toEpsg s` models `CRS(s).to_epsg()`: `some n` on
success, `none` when construction raises `CRSError` or `to_epsg()` returns
`None` (both paths reach the same fallback in the source).
`reprojNonEmpty tgt` models whether `to_crs(tgt)` succeeds and yields a
non-empty geometry. -/
structure FinalizeEnv where
  toEpsg : String → Option Nat
  reprojNonEmpty : String → Bool

/-- `Aoi.is_valid_mtm_crs` (aoi.py lines 48-65) through the pyproj oracle. -/
def is_valid_mtm_crs (env : FinalizeEnv) (crs : String) : Bool :=
  match env.toEpsg crs with
  | some n => VALID_MTM_CODES.contains (toString n)
  | none => false

/-- Python `str.isdigit` over the ASCII strings handled here (false on the
empty string). -/
def isDigitStr (s : String) : Bool := !s.isEmpty && s.data.all (fun c => c.isDigit)

/-- Python truthiness of an optional string: `None` and `""` are falsy. -/
def optFalsy : Option String → Bool
  | none => true
  | some s => s.isEmpty

/-- The `Aoi` fields read by `_finalize_definition`: whether
`combined_gdf_epsg4326` is set and its CRS, the EPSG:4326 bounds, and the
custom-CRS state installed by `__init__`. -/
structure FinalizeState where
  hasGdf : Bool
  gdfCrs : Option String
  bounds : Option Bounds
  useCustom : Bool
  targetMtm0 : Option String

/-- `Aoi._finalize_definition` (aoi.py lines 301-381).  Returns the success
flag together with the final `target_mtm_crs`.  Stages: guard (309-311),
custom-CRS revalidation (314-319), automatic zone selection via
`get_mtm_zone_from_bounds` (322-327), EPSG formatting plus pyproj
normalization with its pure fallback (330-351), and reprojection (354-381)
with the skip when the source CRS already equals the target. -/
def _finalize_definition (env : FinalizeEnv) (st : FinalizeState) :
    Bool × Option String :=
  if ¬ st.hasGdf ∨ st.bounds = none then (false, st.targetMtm0)
  else
    match st.bounds with
    | none => (false, st.targetMtm0)
    | some b =>
      let t0 : Option String :=
        if st.useCustom ∧ ¬ optFalsy st.targetMtm0 then
          if is_valid_mtm_crs env (st.targetMtm0.getD "") then st.targetMtm0 else none
        else st.targetMtm0
      let t1 : Option String :=
        if optFalsy t0 then some (get_mtm_zone_from_bounds b) else t0
      if optFalsy t1 then (false, t1)
      else
        let ts := t1.getD ""
        let t2 := if isDigitStr ts then "EPSG:" ++ ts else ts
        let t3 := match env.toEpsg t2 with
          | some n => "EPSG:" ++ toString n
          | none => "EPSG:" ++ get_mtm_zone_from_bounds b
        match st.gdfCrs with
        | none => (false, some t3)
        | some src =>
          if pyUpperS src = pyUpperS t3 then (true, some t3)
          else if env.reprojNonEmpty t3 then (true, some t3)
          else (false, some t3)

/-- Python exception values reaching the `handle_errors` wrapper: the declared
error type of the call site (`AOIError`) or any other `Exception` subclass
(the blanket second clause). -/
inductive PyExc where
  | aoiError
  | otherError
deriving DecidableEq, Repr

/-- The `handle_errors` decorator (error_handler.py lines 33-62) applied to a
wrapped body: the `except error_type` and `except Exception` clauses both
return `default_return`; a normal return passes through. -/
def handleErrors {α : Type} (default : α) (body : Except PyExc α) : α :=
  match body with
  | Except.ok a => a
  | Except.error PyExc.aoiError => default
  | Except.error PyExc.otherError => default

/-- Environment of `Aoi.define_from_snrc_codes` (aoi.py lines 145-242):
`direct20k` is the `handle_errors`-wrapped (hence total) direct 1:20k lookup
`get_mnt_20k_subfeuillet_data_gdal`, returning the matched row's feuillet
code; `indexRead` the `geopandas.read_file` of the MNT 20k index whose
exceptions are caught per-code (lines 184-215); `copyStep` the state
assignment at lines 221-222, which sits OUTSIDE every internal `try`;
`unionTry` the union-and-bounds block (lines 223-241, `some b` = non-empty
union with EPSG:4326 bounds `b`); plus the custom-CRS state for
finalization.  The SNRC-path GeoDataFrame keeps the index CRS EPSG:32198. -/
structure SnrcEnv where
  direct20k : PyStr → Option PyStr
  indexRead : Except PyExc (List PyStr)
  copyStep : Except PyExc Unit
  unionTry : Except PyExc (Option Bounds)
  fenv : FinalizeEnv
  useCustom : Bool
  targetMtm0 : Option String

/-- The body of `Aoi.define_from_snrc_codes` before the decorator: every
internal `try` is explicit, and only `copyStep` can raise out of the body. -/
def define_from_snrc_codes_body (env : SnrcEnv) (codes : List PyStr) :
    Except PyExc Bool :=
  if codes.isEmpty then Except.ok false
  else
    let refs := codes.map pyUpper
    let collected := refs.foldl (fun acc code =>
      if isCode20k code then
        match env.direct20k code with
        | some row => acc ++ [row]
        | none => acc
      else
        match env.indexRead with
        | Except.error _ => acc
        | Except.ok idx => acc ++ resolveParentTiles idx code) []
    if collected.isEmpty then Except.ok false
    else
      match env.copyStep with
      | Except.error e => Except.error e
      | Except.ok _ =>
        match env.unionTry with
        | Except.error _ => Except.ok false
        | Except.ok none => Except.ok false
        | Except.ok (some b) =>
            Except.ok (_finalize_definition env.fenv
              { hasGdf := true, gdfCrs := some "EPSG:32198", bounds := some b,
                useCustom := env.useCustom, targetMtm0 := env.targetMtm0 }).1

/-- `Aoi.define_from_snrc_codes` as called by the pipeline: the body under
`handle_errors(AOIError, default_return=False)` (aoi.py line 145). -/
def define_from_snrc_codes (env : SnrcEnv) (codes : List PyStr) : Bool :=
  handleErrors false (define_from_snrc_codes_body env codes)

/-- Environment of `Aoi.define_from_kml_file` (aoi.py lines 244-299):
`pathExists` is `os.path.exists` at line 256 (outside every `try`);
`innerRaise` a possible exception inside the big `try` at lines 261-299
(caught there, converted to `False`); `kmlGdf` the `get_kml_bounds` outcome
(`some b` = non-empty unioned geometry, reprojected to EPSG:4326, with
bounds `b`).  The best-effort manifest lookup (lines 280-294) has its own
`try` and does not influence the return value, so it is not modelled. -/
structure KmlEnv where
  pathExists : Except PyExc Bool
  innerRaise : Option PyExc
  kmlGdf : Option Bounds
  fenv : FinalizeEnv
  useCustom : Bool
  targetMtm0 : Option String

/-- The body of `Aoi.define_from_kml_file` before the decorator. -/
def define_from_kml_file_body (env : KmlEnv) (path : PyStr) : Except PyExc Bool :=
  if path.isEmpty then Except.ok false
  else
    match env.pathExists with
    | Except.error e => Except.error e
    | Except.ok ex =>
      if ¬ ex then Except.ok false
      else
        match env.innerRaise with
        | some _ => Except.ok false
        | none =>
          match env.kmlGdf with
          | none => Except.ok false
          | some b =>
              Except.ok (_finalize_definition env.fenv
                { hasGdf := true, gdfCrs := some "EPSG:4326", bounds := some b,
                  useCustom := env.useCustom, targetMtm0 := env.targetMtm0 }).1

/-- `Aoi.define_from_kml_file` as called by the pipeline (aoi.py line 244). -/
def define_from_kml_file (env : KmlEnv) (path : PyStr) : Bool :=
  handleErrors false (define_from_kml_file_body env path)

/-- A concrete KML environment whose unioned geometry lies entirely outside
the Quebec zone bands (center longitude 11), with a pyproj oracle that
normalizes `EPSG:32188` and a succeeding reprojection. -/
def kmlEnvOutOfBand : KmlEnv :=
  { pathExists := Except.ok true, innerRaise := none,
    kmlGdf := some ⟨10, 45, 12, 47⟩,
    fenv := { toEpsg := fun s => if s = "EPSG:32188" then some 32188 else none,
              reprojNonEmpty := fun _ => true },
    useCustom := false, targetMtm0 := none }

/-- An SNRC environment whose uncaught region (the state assignment between
the collection loop and the union `try`) raises. -/
def snrcEnvRaises : SnrcEnv :=
  { direct20k := fun c => some c, indexRead := Except.ok [],
    copyStep := Except.error PyExc.otherError, unionTry := Except.ok none,
    fenv := { toEpsg := fun _ => none, reprojNonEmpty := fun _ => false },
    useCustom := false, targetMtm0 := none }

/-- A KML environment whose uncaught region (`os.path.exists`) raises. -/
def kmlEnvRaises : KmlEnv :=
  { pathExists := Except.error PyExc.otherError, innerRaise := none, kmlGdf := none,
    fenv := { toEpsg := fun _ => none, reprojNonEmpty := fun _ => false },
    useCustom := false, targetMtm0 := none }

/-- The reserved id of the AOI-extent source (pipeline_manager.py lines 237
and 423). -/
def SNRC_INDEX_ID : String := "snrc_index_local_50k"

/-- A configured data source as seen by the run loop (id, name, type, enabled
flag and priority of the `DataSource` object). -/
structure DataSourceRec where
  id : String
  name : String
  ty : String
  enabled : Bool
  prio : Int
deriving DecidableEq, Repr

/-- One record of `processing_summary` (pipeline_manager.py): the identity
fields, the final status string, and `priority_level`.  The item-count
columns are omitted; the claims concern the records' existence, identity and
ordering. -/
structure SummaryRec where
  id : String
  name : String
  ty : String
  enabled : Bool
  status : String
  prio : Int
deriving DecidableEq, Repr

/-- Status of the AOI-extent record (pipeline_manager.py lines 426-446):
requires the EPSG:4326 GeoDataFrame and the target CRS; an exception during
reprojection or save is caught, leaving the default failure status
(`to_crs` raising and `to_file` raising produce the same observable status,
both folded into `saveOk`). -/
def aoiLayerStatus (gdfPresent crsPresent reprojNonEmpty saveOk : Bool) : String :=
  if gdfPresent ∧ crsPresent then
    if reprojNonEmpty then
      if saveOk then "Success" else "Failed (AOI Extent Save)"
    else "Success (empty)"
  else "Failed (AOI Extent Save)"

/-- `PipelineManager._process_aoi_layer` (lines 416-459): emit the AOI extent
only when the configured source list contains an ENABLED source with id
`snrc_index_local_50k` (the `next(...)` lookup at line 423); otherwise
nothing is appended and nothing is written.  First component: the summary
records appended; second: whether the AOI layer was written to the combined
store. -/
def _process_aoi_layer (aoiReady : Bool) (dss : List DataSourceRec)
    (gdfPresent crsPresent reprojNonEmpty saveOk : Bool) :
    List SummaryRec × Bool :=
  if ¬ aoiReady then ([], false)
  else
    match dss.find? (fun ds => ds.id == SNRC_INDEX_ID && ds.enabled) with
    | none => ([], false)
    | some ds =>
        ([{ id := ds.id, name := ds.name, ty := ds.ty, enabled := ds.enabled,
            status := aoiLayerStatus gdfPresent crsPresent reprojNonEmpty saveOk,
            prio := ds.prio }],
         gdfPresent && crsPresent && reprojNonEmpty && saveOk)

/-- Abstraction of the per-source fetch-and-process block (pipeline_manager.py
lines 240-401): the final status it assigns to an enabled, non-reserved
source.  Its only observable effect on the summary is that exactly one record
with this status is appended per such source. -/
structure RunEnv where
  statusOf : DataSourceRec → String

/-- One iteration of the source loop (pipeline_manager.py lines 217-403):
disabled sources are recorded as ignored (lines 230-233); an enabled source
with the reserved id is skipped without a record (lines 236-238); every other
source gets exactly one record (appended at line 402). -/
def sourceOutcome (env : RunEnv) (ds : DataSourceRec) : Option SummaryRec :=
  if ¬ ds.enabled then
    some { id := ds.id, name := ds.name, ty := ds.ty, enabled := ds.enabled,
           status := "Ignored (not enabled)", prio := ds.prio }
  else if ds.id == SNRC_INDEX_ID then none
  else
    some { id := ds.id, name := ds.name, ty := ds.ty, enabled := ds.enabled,
           status := env.statusOf ds, prio := ds.prio }

/-- The summary built by `PipelineManager.run` (lines 206-403): the AOI-layer
records first (line 214), then one outcome per looped source, in configured
order.  Second component: whether the AOI layer was written. -/
def runSummary (env : RunEnv) (aoiReady : Bool) (dss : List DataSourceRec)
    (gdfPresent crsPresent reprojNonEmpty saveOk : Bool) :
    List SummaryRec × Bool :=
  ((_process_aoi_layer aoiReady dss gdfPresent crsPresent reprojNonEmpty saveOk).1
      ++ dss.filterMap (sourceOutcome env),
   (_process_aoi_layer aoiReady dss gdfPresent crsPresent reprojNonEmpty saveOk).2)

/-- A run environment in which every processed source succeeds. -/
def runEnvAllSuccess : RunEnv := { statusOf := fun _ => "Success" }

/-- First component of the display sort key (pipeline_manager.py line 489):
the Python Boolean `x.get("id") == "snrc_index_local_50k"`, which sorts as
`False < True` — encoded as 0/1. -/
def aoiIndexKey (r : SummaryRec) : Nat := if r.id == SNRC_INDEX_ID then 1 else 0

/-- The ascending lexicographic order on the sort key
`(id == "snrc_index_local_50k", priority_level, id)` used by
`display_summary` (pipeline_manager.py line 489). -/
def summaryKeyLe (a b : SummaryRec) : Prop :=
  aoiIndexKey a < aoiIndexKey b ∨
    (aoiIndexKey a = aoiIndexKey b ∧
      (a.prio < b.prio ∨ (a.prio = b.prio ∧ a.id ≤ b.id)))

instance : DecidableRel summaryKeyLe := fun a b => by
  unfold summaryKeyLe
  infer_instance

instance : IsTotal SummaryRec summaryKeyLe := ⟨by
  intro a b
  unfold summaryKeyLe
  rcases lt_trichotomy (aoiIndexKey a) (aoiIndexKey b) with h | h | h
  · exact Or.inl (Or.inl h)
  · rcases lt_trichotomy a.prio b.prio with h' | h' | h'
    · exact Or.inl (Or.inr ⟨h, Or.inl h'⟩)
    · rcases le_total a.id b.id with h'' | h''
      · exact Or.inl (Or.inr ⟨h, Or.inr ⟨h', h''⟩⟩)
      · exact Or.inr (Or.inr ⟨h.symm, Or.inr ⟨h'.symm, h''⟩⟩)
    · exact Or.inr (Or.inr ⟨h.symm, Or.inl h'⟩)
  · exact Or.inr (Or.inl h)⟩

instance : IsTrans SummaryRec summaryKeyLe := ⟨by
  intro a b c hab hbc
  unfold summaryKeyLe at hab hbc ⊢
  rcases hab with h1 | ⟨e1, h1⟩
  · rcases hbc with h2 | ⟨e2, h2⟩
    · exact Or.inl (lt_trans h1 h2)
    · exact Or.inl (e2 ▸ h1)
  · rcases hbc with h2 | ⟨e2, h2⟩
    · exact Or.inl (e1 ▸ h2)
    · refine Or.inr ⟨e1.trans e2, ?_⟩
      rcases h1 with p1 | ⟨ep1, s1⟩
      · rcases h2 with p2 | ⟨ep2, s2⟩
        · exact Or.inl (lt_trans p1 p2)
        · exact Or.inl (ep2 ▸ p1)
      · rcases h2 with p2 | ⟨ep2, s2⟩
        · exact Or.inl (ep1 ▸ p2)
        · exact Or.inr ⟨ep1.trans ep2, le_trans s1 s2⟩⟩

/-- `display_summary`'s sort of `processing_summary` (pipeline_manager.py
line 489): the stable ascending sort by the key above (Python `list.sort`,
realized here by the stable insertion sort). -/
def display_sort (l : List SummaryRec) : List SummaryRec :=
  l.insertionSort summaryKeyLe

/-- C1: Zone selection is total and deterministic: every bounds tuple is mapped
to one of the four fixed zone identifiers; the result depends only on the
center longitude (hence two calls with the same bounds agree); each contiguous
3-degree band maps to its zone; the bands cover `[-81, -69)` without gaps; and
outside every band the default zone `32188` is returned. -/
theorem C1_zone_selection (b : Bounds) :
    get_mtm_zone_from_bounds b ∈ (["32187", "32188", "32189", "32190"] : List String) ∧
    (∀ b' : Bounds, centerLon b = centerLon b' →
      get_mtm_zone_from_bounds b = get_mtm_zone_from_bounds b') ∧
    (inBand7 (centerLon b) → get_mtm_zone_from_bounds b = "32187") ∧
    (inBand8 (centerLon b) → get_mtm_zone_from_bounds b = "32188") ∧
    (inBand9 (centerLon b) → get_mtm_zone_from_bounds b = "32189") ∧
    (inBand10 (centerLon b) → get_mtm_zone_from_bounds b = "32190") ∧
    (∀ c : ℚ, -81 ≤ c → c < -69 →
      inBand7 c ∨ inBand8 c ∨ inBand9 c ∨ inBand10 c) ∧
    (¬ inBand7 (centerLon b) → ¬ inBand8 (centerLon b) → ¬ inBand9 (centerLon b) →
      ¬ inBand10 (centerLon b) → get_mtm_zone_from_bounds b = "32188") := by
  refine ⟨?_, ?_, ?_, ?_, ?_, ?_, ?_, ?_⟩
  · simp only [get_mtm_zone_from_bounds]
    split_ifs <;> simp
  · intro b' h
    simp only [get_mtm_zone_from_bounds, h]
  · intro h
    simp only [get_mtm_zone_from_bounds, if_pos (show _ ∧ _ from h)]
  · rintro ⟨h1, h2⟩
    have n7 : ¬ (-72 ≤ centerLon b ∧ centerLon b < -69) := by
      rintro ⟨h3, _⟩; exact absurd h3 (not_le.mpr h2)
    simp only [get_mtm_zone_from_bounds, if_neg n7, if_pos (And.intro h1 h2)]
  · rintro ⟨h1, h2⟩
    have n7 : ¬ (-72 ≤ centerLon b ∧ centerLon b < -69) := by
      rintro ⟨h3, _⟩; exact absurd h3 (not_le.mpr (lt_trans h2 (by norm_num)))
    have n8 : ¬ (-75 ≤ centerLon b ∧ centerLon b < -72) := by
      rintro ⟨h3, _⟩; exact absurd h3 (not_le.mpr h2)
    simp only [get_mtm_zone_from_bounds, if_neg n7, if_neg n8, if_pos (And.intro h1 h2)]
  · rintro ⟨h1, h2⟩
    have n7 : ¬ (-72 ≤ centerLon b ∧ centerLon b < -69) := by
      rintro ⟨h3, _⟩; exact absurd h3 (not_le.mpr (lt_trans h2 (by norm_num)))
    have n8 : ¬ (-75 ≤ centerLon b ∧ centerLon b < -72) := by
      rintro ⟨h3, _⟩; exact absurd h3 (not_le.mpr (lt_trans h2 (by norm_num)))
    have n9 : ¬ (-78 ≤ centerLon b ∧ centerLon b < -75) := by
      rintro ⟨h3, _⟩; exact absurd h3 (not_le.mpr h2)
    simp only [get_mtm_zone_from_bounds, if_neg n7, if_neg n8, if_neg n9,
      if_pos (And.intro h1 h2)]
  · intro c hlo hhi
    rcases le_or_lt (-72) c with h | h
    · exact Or.inl ⟨h, hhi⟩
    · rcases le_or_lt (-75) c with h' | h'
      · exact Or.inr (Or.inl ⟨h', h⟩)
      · rcases le_or_lt (-78) c with h'' | h''
        · exact Or.inr (Or.inr (Or.inl ⟨h'', h'⟩))
        · exact Or.inr (Or.inr (Or.inr ⟨hlo, h''⟩))
  · intro h7 h8 h9 h10
    simp only [inBand7] at h7
    simp only [inBand8] at h8
    simp only [inBand9] at h9
    simp only [inBand10] at h10
    simp only [get_mtm_zone_from_bounds]
    rw [if_neg h7, if_neg h8, if_neg h9, if_neg h10]

/-- Witness for C1 at concrete bounds: one input per band and one out-of-band
input, each hypothesis discharged by computation. -/
theorem C1_zone_selection_witness :
    get_mtm_zone_from_bounds ⟨-71, 45, -69, 46⟩ = "32187" ∧
    get_mtm_zone_from_bounds ⟨-74, 45, -72, 46⟩ = "32188" ∧
    get_mtm_zone_from_bounds ⟨-77, 45, -75, 46⟩ = "32189" ∧
    get_mtm_zone_from_bounds ⟨-80, 45, -78, 46⟩ = "32190" ∧
    get_mtm_zone_from_bounds ⟨0, 0, 0, 0⟩ = "32188" :=
  ⟨(C1_zone_selection ⟨-71, 45, -69, 46⟩).2.2.1 (by constructor <;> norm_num [centerLon]),
   (C1_zone_selection ⟨-74, 45, -72, 46⟩).2.2.2.1 (by constructor <;> norm_num [centerLon]),
   (C1_zone_selection ⟨-77, 45, -75, 46⟩).2.2.2.2.1 (by constructor <;> norm_num [centerLon]),
   (C1_zone_selection ⟨-80, 45, -78, 46⟩).2.2.2.2.2.1 (by constructor <;> norm_num [centerLon]),
   (C1_zone_selection ⟨0, 0, 0, 0⟩).2.2.2.2.2.2.2
     (by norm_num [inBand7, centerLon]) (by norm_num [inBand8, centerLon])
     (by norm_num [inBand9, centerLon]) (by norm_num [inBand10, centerLon])⟩

/-- C3: a tile code is classified as a child (1:20k) code iff its uppercased
form decomposes as a valid 5-6 character 50k parent prefix followed by one of
the directional suffixes (hence total length 7 or 8); a code lacking such a
suffix is never classified as a child, i.e. it is treated as a parent code. -/
theorem C3_child_code_grammar (code : PyStr) :
    isCode20k code = true ↔
      ∃ p suf : PyStr, pyUpper code = p ++ suf ∧ suf ∈ suffixes20k ∧
        isValid50kShape p = true ∧ (p.length = 5 ∨ p.length = 6) := by
  unfold isCode20k
  simp only [Bool.and_eq_true, Bool.or_eq_true, beq_iff_eq, decide_eq_true_eq]
  constructor
  · rintro ⟨⟨hlen, hmem⟩, hshape⟩
    refine ⟨(pyUpper code).take ((pyUpper code).length - 2),
            (pyUpper code).drop ((pyUpper code).length - 2),
            (List.take_append_drop _ _).symm, ?_, hshape, ?_⟩
    · exact hmem
    · rcases hlen with h | h <;>
        simp [List.length_take, h]
  · rintro ⟨p, suf, hcat, hmem, hshape, hlen⟩
    have hsuf2 : suf.length = 2 := by
      simp only [suffixes20k, List.mem_cons, List.not_mem_nil, or_false] at hmem
      rcases hmem with rfl | rfl | rfl | rfl | rfl | rfl <;> rfl
    have hculen : (pyUpper code).length = p.length + 2 := by
      rw [hcat, List.length_append, hsuf2]
    have hl : (p ++ suf).length - 2 = p.length := by
      rw [List.length_append, hsuf2]
      omega
    have hdrop : (pyUpper code).drop ((pyUpper code).length - 2) = suf := by
      rw [hcat, hl, List.drop_left]
    have htake : (pyUpper code).take ((pyUpper code).length - 2) = p := by
      rw [hcat, hl, List.take_left]
    refine ⟨⟨?_, ?_⟩, ?_⟩
    · rcases hlen with h | h <;> simp [hculen, h]
    · simpa [last2, hdrop] using hmem
    · rwa [htake]

/-- C4: parent-code resolution first normalizes the code (uppercase, stripping
an optional leading zero from a 6-character code, identity otherwise) and then
returns exactly the index rows whose code case-insensitively starts with the
normalized prefix and whose total length is the prefix length plus 2 — a pure
prefix-containment scan over the index rows. -/
theorem C4_parent_resolution (index : List PyStr) (code : PyStr) :
    (∀ row, row ∈ resolveParentTiles index code ↔
       row ∈ index ∧
       (normalize_50k_code_for_20k_index code).isPrefixOf (pyUpper row) = true ∧
       row.length = (normalize_50k_code_for_20k_index code).length + 2) ∧
    (∀ rest : PyStr, pyUpper code = '0' :: rest → rest.length = 5 →
       normalize_50k_code_for_20k_index code = rest) ∧
    ((pyUpper code).length = 6 → (pyUpper code).take 1 ≠ ['0'] →
       normalize_50k_code_for_20k_index code = pyUpper code) ∧
    ((pyUpper code).length ≠ 6 →
       normalize_50k_code_for_20k_index code = pyUpper code) := by
  refine ⟨?_, ?_, ?_, ?_⟩
  · intro row
    unfold resolveParentTiles
    simp only [List.mem_filter, Bool.and_eq_true, beq_iff_eq]
  · intro rest hcat hlen
    unfold normalize_50k_code_for_20k_index
    rw [hcat]
    have hc : ('0' :: rest).length = 6 ∧ ('0' :: rest).take 1 = ['0'] := by
      constructor
      · simp [hlen]
      · rfl
    rw [if_pos hc]
    rfl
  · intro hlen hhead
    unfold normalize_50k_code_for_20k_index
    rw [if_neg]
    rintro ⟨_, h2⟩
    exact hhead h2
  · intro hlen
    unfold normalize_50k_code_for_20k_index
    rw [if_neg]
    rintro ⟨h1, _⟩
    exact hlen h1

/-- Witness for C4 at concrete inputs: the code `"021m07"` normalizes to
`"21M07"`, and a lowercase row `"21m07so"` of the right length is selected by
the prefix scan. -/
theorem C4_parent_resolution_witness :
    normalize_50k_code_for_20k_index "021m07".toList = "21M07".toList ∧
    "21m07so".toList ∈
      resolveParentTiles ["21M07NE".toList, "21m07so".toList, "31H02SE".toList]
        "021m07".toList :=
  ⟨(C4_parent_resolution [] "021m07".toList).2.1 "21M07".toList (by decide) (by decide),
   ((C4_parent_resolution ["21M07NE".toList, "21m07so".toList, "31H02SE".toList]
      "021m07".toList).1 "21m07so".toList).mpr ⟨by decide, by decide, by decide⟩⟩

/-- C8: whenever clipping succeeds but writing the layer fails, the returned
triple still carries the pre-clip count (the feature count read, preserved by
reprojection) and the post-clip count, alongside the failure flag, and no
layer is written. -/
theorem C8_counts_survive_write_failure (inp : VecInput) (target : String)
    (h1 : inp.fileExists = true) (h2 : inp.featureCount ≠ 0)
    (h3 : pyUpperS (inp.crs.getD "EPSG:4326") ≠ pyUpperS target → inp.reprojOk = true)
    (h4 : inp.aoiValid = true ∨ inp.aoiRepairOk = true)
    (h5 : inp.clipOk = true ∨ inp.retryOk = true)
    (h6 : inp.writeOk = false) :
    process_vector_data inp target =
      ((false, (inp.featureCount : Int),
        (if inp.clipOk then (inp.clippedCount : Int) else (inp.retryClippedCount : Int))),
       false) := by
  unfold process_vector_data
  rw [if_neg (by simp [h1])]
  rw [if_neg h2]
  rw [if_neg (by rintro ⟨hne, hnr⟩; exact hnr (h3 hne))]
  rw [if_neg (by rintro ⟨hv, hr⟩; rcases h4 with h | h; exacts [hv (by simp [h]), hr (by simp [h])])]
  rcases h5 with h | h
  · rw [if_pos (by simp [h]), if_neg (by simp [h6]), if_pos h]
  · by_cases hc : inp.clipOk = true
    · rw [if_pos (by simp [hc]), if_neg (by simp [h6]), if_pos hc]
    · rw [if_neg (by simpa using hc), if_pos (by simp [h]),
        if_neg (by simp [h6]), if_neg hc]

/-- Witness for C8: a concrete input whose clip succeeds (2 of 3 features
remain) but whose write fails still reports both counts. -/
theorem C8_counts_survive_write_failure_witness :
    process_vector_data
      { fileExists := true, featureCount := 3, crs := some "epsg:32188",
        reprojOk := false, aoiValid := true, aoiRepairOk := false,
        clipOk := true, retryOk := false, clippedCount := 2,
        retryClippedCount := 0, writeOk := false } "EPSG:32188" =
      ((false, 3, 2), false) :=
  C8_counts_survive_write_failure _ "EPSG:32188" (by decide) (by decide)
    (by intro h; exact absurd rfl h) (by decide) (by decide) (by decide)

/-- C10: an existing input file with zero features yields success with both
counts zero and no layer written to the combined output store. -/
theorem C10_empty_input_success (inp : VecInput) (target : String)
    (h1 : inp.fileExists = true) (h2 : inp.featureCount = 0) :
    process_vector_data inp target = ((true, 0, 0), false) := by
  unfold process_vector_data
  rw [if_neg (by simp [h1]), if_pos h2]

/-- Witness for C10 at a concrete empty input. -/
theorem C10_empty_input_success_witness :
    process_vector_data
      { fileExists := true, featureCount := 0, crs := none,
        reprojOk := true, aoiValid := true, aoiRepairOk := true,
        clipOk := true, retryOk := true, clippedCount := 0,
        retryClippedCount := 0, writeOk := true } "EPSG:32187" =
      ((true, 0, 0), false) :=
  C10_empty_input_success _ "EPSG:32187" (by decide) (by decide)

/-- Helper: a tile that contributes a temp path contributes the temp path
carrying its own file name (only the fully-verified success branch yields a
temp path). -/
theorem tileFetchResult_temp_inv (ce : Bool) (t : TileJob) (p : String)
    (h : (tileFetchResult ce t).1 = some (TifPath.temp p)) :
    p = tifFilename t := by
  unfold tileFetchResult at h
  split_ifs at h <;> simp_all

/-- C7 counterexample to the claim as stated: a download whose declared
content length (`content-length: 0`) differs from the 500 bytes received is
nevertheless accepted — the guard at mnt_lidar.py line 160 requires
`total_size != 0` — so the partial file is kept and the tile is added to the
successfully fetched list. -/
theorem C7_zero_length_counterexample :
    (({ feuillet := "11G01", urlOk := true, cacheHit := false, httpOk := true,
        writeOk := true, contentLength := some 0, receivedLen := 500 } :
        TileJob).contentLength = some 0 ∧ (0 : Nat) ≠ 500) ∧
    tileFetchResult false
      { feuillet := "11G01", urlOk := true, cacheHit := false, httpOk := true,
        writeOk := true, contentLength := some 0, receivedLen := 500 } =
      (some (TifPath.temp "MNT_11G01.tif"), true) ∧
    fetch_data true true false
      [{ feuillet := "11G01", urlOk := true, cacheHit := false, httpOk := true,
         writeOk := true, contentLength := some 0, receivedLen := 500 }] =
      some [TifPath.temp "MNT_11G01.tif"] := by
  refine ⟨⟨rfl, by decide⟩, rfl, rfl⟩

/-- C7 (amended): for every actual download (not a cache hit) whose declared
content length is NONZERO and differs from the bytes received, the fetch
treats it as a verification failure: the partial temp file is deleted, the
tile contributes no path, its temp path never appears in the returned list
(given per-run-unique tile file names), and `fetch_data` returns a value
rather than propagating an exception. -/
theorem C7_download_verification (cacheEnabled : Bool) (tiles : List TileJob)
    (t : TileJob) (ht : t ∈ tiles)
    (hnc : ¬ (cacheEnabled = true ∧ t.cacheHit = true))
    (hurl : t.urlOk = true) (hhttp : t.httpOk = true) (hwr : t.writeOk = true)
    (h0 : t.contentLength.getD 0 ≠ 0)
    (hne : t.receivedLen ≠ t.contentLength.getD 0)
    (huniq : ∀ t' ∈ tiles, tifFilename t' = tifFilename t → t' = t) :
    tileFetchResult cacheEnabled t = (none, false) ∧
    ∀ enabled configOk res, fetch_data enabled configOk cacheEnabled tiles = some res →
      TifPath.temp (tifFilename t) ∉ res := by
  have hres : tileFetchResult cacheEnabled t = (none, false) := by
    unfold tileFetchResult
    rw [if_neg (by simp [hurl])]
    rw [if_neg (by rintro ⟨hc1, hc2⟩; exact hnc ⟨hc1, hc2⟩)]
    rw [if_neg (by simp [hhttp])]
    rw [if_neg (by simp [hwr])]
    rw [if_pos ⟨h0, hne⟩]
  refine ⟨hres, ?_⟩
  intro enabled configOk res hfetch hmem
  unfold fetch_data at hfetch
  split_ifs at hfetch
  rcases Option.some.inj hfetch with rfl
  rcases List.mem_filterMap.mp hmem with ⟨t', ht', heq⟩
  have hname : tifFilename t' = tifFilename t :=
    (tileFetchResult_temp_inv cacheEnabled t' _ heq).symm
  have : t' = t := huniq t' ht' hname
  subst this
  rw [hres] at heq
  simp at heq

/-- Witness for C7 at spec scenario E: a single tile declaring 1000 bytes but
receiving 500 is rejected, and the run records zero successfully fetched
tiles (`fetch_data` returns `none`). -/
theorem C7_download_verification_witness :
    tileFetchResult false
      { feuillet := "22A04", urlOk := true, cacheHit := false, httpOk := true,
        writeOk := true, contentLength := some 1000, receivedLen := 500 } =
      (none, false) ∧
    fetch_data true true false
      [{ feuillet := "22A04", urlOk := true, cacheHit := false, httpOk := true,
         writeOk := true, contentLength := some 1000, receivedLen := 500 }] = none :=
  ⟨(C7_download_verification false _ _ (List.mem_singleton.mpr rfl) (by decide)
      (by decide) (by decide) (by decide) (by decide) (by decide)
      (by intro t' ht' _; simpa using ht')).1,
   by decide⟩

/-- Helper: outside every band the zone selector returns the default zone. -/
theorem get_mtm_zone_default (b : Bounds)
    (h7 : ¬ inBand7 (centerLon b)) (h8 : ¬ inBand8 (centerLon b))
    (h9 : ¬ inBand9 (centerLon b)) (h10 : ¬ inBand10 (centerLon b)) :
    get_mtm_zone_from_bounds b = "32188" := by
  simp only [inBand7] at h7
  simp only [inBand8] at h8
  simp only [inBand9] at h9
  simp only [inBand10] at h10
  simp only [get_mtm_zone_from_bounds]
  rw [if_neg h7, if_neg h8, if_neg h9, if_neg h10]

/-- Helper: `_finalize_definition` with no custom CRS, a set GeoDataFrame and
bounds whose zone selector yields the default zone, resolves the target to
`EPSG:32188` and succeeds exactly when reprojection is skipped or succeeds. -/
theorem finalize_auto_default_zone (env : FinalizeEnv) (b : Bounds) (src : String)
    (hz : get_mtm_zone_from_bounds b = "32188")
    (hepsg : env.toEpsg "EPSG:32188" = some 32188) :
    _finalize_definition env
      { hasGdf := true, gdfCrs := some src, bounds := some b,
        useCustom := false, targetMtm0 := none } =
      (if pyUpperS src = pyUpperS "EPSG:32188" then (true, some "EPSG:32188")
       else if env.reprojNonEmpty "EPSG:32188" then (true, some "EPSG:32188")
       else (false, some "EPSG:32188")) := by
  unfold _finalize_definition
  rw [if_neg (by simp)]
  simp [optFalsy, hz, Option.getD,
    show ("32188" : String).isEmpty = false from rfl,
    show isDigitStr "32188" = true from by decide,
    show "EPSG:" ++ "32188" = "EPSG:32188" from rfl, hepsg,
    show toString (32188 : Nat) = "32188" from by decide]

/-- C2 counterexample: a boundary-file AOI whose bounds' center longitude
(11 degrees) lies outside every zone band nevertheless finalizes
successfully (`define_from_kml_file` returns `True`): the finalization path
calls the defaulting zone selector, so no AOI-resolution failure occurs. -/
theorem C2_resolution_error_counterexample :
    (¬ inBand7 (centerLon ⟨10, 45, 12, 47⟩) ∧ ¬ inBand8 (centerLon ⟨10, 45, 12, 47⟩) ∧
     ¬ inBand9 (centerLon ⟨10, 45, 12, 47⟩) ∧ ¬ inBand10 (centerLon ⟨10, 45, 12, 47⟩)) ∧
    define_from_kml_file kmlEnvOutOfBand "italy.kml".toList = true := by
  have h7 : ¬ inBand7 (centerLon ⟨10, 45, 12, 47⟩) := by norm_num [inBand7, centerLon]
  have h8 : ¬ inBand8 (centerLon ⟨10, 45, 12, 47⟩) := by norm_num [inBand8, centerLon]
  have h9 : ¬ inBand9 (centerLon ⟨10, 45, 12, 47⟩) := by norm_num [inBand9, centerLon]
  have h10 : ¬ inBand10 (centerLon ⟨10, 45, 12, 47⟩) := by norm_num [inBand10, centerLon]
  have hz := get_mtm_zone_default ⟨10, 45, 12, 47⟩ h7 h8 h9 h10
  have hfin := finalize_auto_default_zone kmlEnvOutOfBand.fenv ⟨10, 45, 12, 47⟩
    "EPSG:4326" hz (by decide)
  rw [if_neg (by decide), if_pos (by decide)] at hfin
  refine ⟨⟨h7, h8, h9, h10⟩, ?_⟩
  simp only [kmlEnvOutOfBand] at hfin
  unfold define_from_kml_file define_from_kml_file_body
  simp [kmlEnvOutOfBand, handleErrors, hfin]

/-- C2 (amended): for every boundary-file AOI whose bounds' center longitude
lies outside every zone band, AOI finalization does not fail with an
AOI-resolution error: the defaulting zone selector assigns the default zone,
the target resolves to `EPSG:32188`, and definition succeeds whenever
reprojection into that zone succeeds. -/
theorem C2_out_of_band_aoi_succeeds (env : KmlEnv) (path : PyStr) (b : Bounds)
    (hpath : path ≠ [])
    (hex : env.pathExists = Except.ok true)
    (hin : env.innerRaise = none)
    (hgdf : env.kmlGdf = some b)
    (h7 : ¬ inBand7 (centerLon b)) (h8 : ¬ inBand8 (centerLon b))
    (h9 : ¬ inBand9 (centerLon b)) (h10 : ¬ inBand10 (centerLon b))
    (hcust : env.useCustom = false) (ht0 : env.targetMtm0 = none)
    (hepsg : env.fenv.toEpsg "EPSG:32188" = some 32188)
    (hrep : env.fenv.reprojNonEmpty "EPSG:32188" = true) :
    define_from_kml_file env path = true ∧
    _finalize_definition env.fenv
      { hasGdf := true, gdfCrs := some "EPSG:4326", bounds := some b,
        useCustom := false, targetMtm0 := none } = (true, some "EPSG:32188") := by
  have hz := get_mtm_zone_default b h7 h8 h9 h10
  have hfin := finalize_auto_default_zone env.fenv b "EPSG:4326" hz hepsg
  rw [if_neg (by decide), if_pos hrep] at hfin
  have hpe : path.isEmpty = false := by
    cases path with
    | nil => exact absurd rfl hpath
    | cons a l => rfl
  refine ⟨?_, hfin⟩
  unfold define_from_kml_file define_from_kml_file_body
  rw [hpe, hex, hin, hgdf, hcust, ht0]
  simp [handleErrors, hfin]

/-- Witness for the amended C2 at the concrete out-of-band environment. -/
theorem C2_out_of_band_aoi_succeeds_witness :
    define_from_kml_file kmlEnvOutOfBand "area.kml".toList = true :=
  (C2_out_of_band_aoi_succeeds kmlEnvOutOfBand "area.kml".toList ⟨10, 45, 12, 47⟩
    (by decide) rfl rfl rfl (by norm_num [inBand7, centerLon])
    (by norm_num [inBand8, centerLon]) (by norm_num [inBand9, centerLon])
    (by norm_num [inBand10, centerLon]) rfl rfl (by decide) rfl).1

/-- C9: the AOI definition entry points always return a Boolean to the
caller: wrapped by `handle_errors(AOIError, default_return=False)`, a body
that raises (any `Exception`, whichever clause catches it) yields `False`,
and a body that returns a Boolean passes it through — no exception escapes
`define_from_snrc_codes` or `define_from_kml_file`. -/
theorem C9_define_entry_points_total (envS : SnrcEnv) (codes : List PyStr)
    (envK : KmlEnv) (path : PyStr) :
    (∀ e, define_from_snrc_codes_body envS codes = Except.error e →
       define_from_snrc_codes envS codes = false) ∧
    (∀ v, define_from_snrc_codes_body envS codes = Except.ok v →
       define_from_snrc_codes envS codes = v) ∧
    (∀ e, define_from_kml_file_body envK path = Except.error e →
       define_from_kml_file envK path = false) ∧
    (∀ v, define_from_kml_file_body envK path = Except.ok v →
       define_from_kml_file envK path = v) := by
  refine ⟨?_, ?_, ?_, ?_⟩
  · intro e h
    unfold define_from_snrc_codes
    rw [h]
    cases e <;> rfl
  · intro v h
    unfold define_from_snrc_codes
    rw [h]
    rfl
  · intro e h
    unfold define_from_kml_file
    rw [h]
    cases e <;> rfl
  · intro v h
    unfold define_from_kml_file
    rw [h]
    rfl

/-- Witness for C9: concrete bodies that raise are converted to `False` by
the wrapper. -/
theorem C9_define_entry_points_total_witness :
    define_from_snrc_codes snrcEnvRaises ["21M07SO".toList] = false ∧
    define_from_kml_file kmlEnvRaises "area2.kml".toList = false :=
  ⟨(C9_define_entry_points_total snrcEnvRaises ["21M07SO".toList]
      kmlEnvRaises "area2.kml".toList).1 PyExc.otherError rfl,
   (C9_define_entry_points_total snrcEnvRaises ["21M07SO".toList]
      kmlEnvRaises "area2.kml".toList).2.2.1 PyExc.otherError rfl⟩

/-- C5 counterexample: a run whose configured source list has no enabled
`snrc_index_local_50k` source emits no AOI layer and records no AOI
SourceOutcome — the emission is NOT independent of the configured list. -/
theorem C5_aoi_outcome_counterexample :
    runSummary runEnvAllSuccess true [⟨"hydro", "Hydro", "wfs", true, 10⟩]
        true true true true =
      ([⟨"hydro", "Hydro", "wfs", true, "Success", 10⟩], false) ∧
    ∀ r ∈ (runSummary runEnvAllSuccess true [⟨"hydro", "Hydro", "wfs", true, 10⟩]
        true true true true).1, r.id ≠ SNRC_INDEX_ID := by
  constructor
  · rfl
  · decide

/-- C5 (amended): the AOI geometry is emitted, first in the run summary and
producing exactly one SourceOutcome, precisely when the configured source
list contains an enabled source with id `snrc_index_local_50k`; when it does
not, no AOI layer is written and no AOI outcome is recorded. -/
theorem C5_aoi_layer_emission (env : RunEnv) (dss : List DataSourceRec)
    (g c r s : Bool) :
    ((∃ ds ∈ dss, ds.id = SNRC_INDEX_ID ∧ ds.enabled = true) →
       ∃ rec rest, (runSummary env true dss g c r s).1 = rec :: rest ∧
         rec.id = SNRC_INDEX_ID ∧
         rest = dss.filterMap (sourceOutcome env)) ∧
    ((¬ ∃ ds ∈ dss, ds.id = SNRC_INDEX_ID ∧ ds.enabled = true) →
       _process_aoi_layer true dss g c r s = ([], false) ∧
       (runSummary env true dss g c r s).1 = dss.filterMap (sourceOutcome env)) := by
  constructor
  · rintro ⟨ds, hds, hid, hen⟩
    have hsome : (dss.find? (fun d => d.id == SNRC_INDEX_ID && d.enabled)).isSome := by
      rw [List.find?_isSome]
      exact ⟨ds, hds, by simp [hid, hen]⟩
    obtain ⟨d, hfind⟩ := Option.isSome_iff_exists.mp hsome
    have hp := List.find?_some hfind
    simp only [Bool.and_eq_true, beq_iff_eq] at hp
    refine ⟨{ id := d.id, name := d.name, ty := d.ty, enabled := d.enabled,
              status := aoiLayerStatus g c r s, prio := d.prio },
            dss.filterMap (sourceOutcome env), ?_, hp.1, rfl⟩
    unfold runSummary _process_aoi_layer
    rw [if_neg (by simp), hfind]
    rfl
  · intro hne
    have hfind : dss.find? (fun d => d.id == SNRC_INDEX_ID && d.enabled) = none := by
      rw [List.find?_eq_none]
      intro d hd hp
      simp only [Bool.and_eq_true, beq_iff_eq] at hp
      exact hne ⟨d, hd, hp.1, hp.2⟩
    constructor
    · unfold _process_aoi_layer
      rw [if_neg (by simp), hfind]
    · unfold runSummary _process_aoi_layer
      rw [if_neg (by simp), hfind]
      rfl

/-- Witness for the amended C5: with an enabled `snrc_index_local_50k` source
configured, the AOI outcome exists and comes first. -/
theorem C5_aoi_layer_emission_witness :
    ∃ rec rest,
      (runSummary runEnvAllSuccess true
          [⟨SNRC_INDEX_ID, "AOI Index", "index_gpkg", true, 0⟩,
           ⟨"hydro", "Hydro", "wfs", true, 10⟩] true true true true).1 = rec :: rest ∧
      rec.id = SNRC_INDEX_ID ∧
      rest = [⟨SNRC_INDEX_ID, "AOI Index", "index_gpkg", true, 0⟩,
              ⟨"hydro", "Hydro", "wfs", true, 10⟩].filterMap
               (sourceOutcome runEnvAllSuccess) :=
  (C5_aoi_layer_emission runEnvAllSuccess
    [⟨SNRC_INDEX_ID, "AOI Index", "index_gpkg", true, 0⟩,
     ⟨"hydro", "Hydro", "wfs", true, 10⟩] true true true true).1
    ⟨⟨SNRC_INDEX_ID, "AOI Index", "index_gpkg", true, 0⟩, by simp, rfl, rfl⟩

/-- C6 counterexample: with an AOI-index record (priority 0) and an ordinary
record (priority 5), the display sort puts the ordinary record FIRST and the
AOI-index record LAST — the key `id == "snrc_index_local_50k"` sorts `True`
after `False`, so the claim that the AOI-index entry is placed first is
false. -/
theorem C6_aoi_first_counterexample :
    display_sort
        [⟨SNRC_INDEX_ID, "AOI Extent", "index_gpkg", true, "Success", 0⟩,
         ⟨"hydro", "Hydro", "wfs", true, "Success", 5⟩] =
      [⟨"hydro", "Hydro", "wfs", true, "Success", 5⟩,
       ⟨SNRC_INDEX_ID, "AOI Extent", "index_gpkg", true, "Success", 0⟩] ∧
    (0 : Int) < 5 := by
  constructor
  · rfl
  · norm_num

/-- C6 (amended): the displayed ordering sorts the summary by the key
(AOI-index-LAST, then priority, then id): the result is sorted by
`summaryKeyLe`, is a permutation of the input, and every non-AOI-index entry
strictly precedes every AOI-index entry in that order. -/
theorem C6_display_order (l : List SummaryRec) :
    List.Sorted summaryKeyLe (display_sort l) ∧
    List.Perm (display_sort l) l ∧
    (∀ a b : SummaryRec, a.id ≠ SNRC_INDEX_ID → b.id = SNRC_INDEX_ID →
       summaryKeyLe a b ∧ ¬ summaryKeyLe b a) := by
  refine ⟨List.sorted_insertionSort summaryKeyLe l,
    List.perm_insertionSort summaryKeyLe l, ?_⟩
  intro a b ha hb
  have hka : aoiIndexKey a = 0 := by simp [aoiIndexKey, ha]
  have hkb : aoiIndexKey b = 1 := by simp [aoiIndexKey, hb]
  constructor
  · exact Or.inl (by rw [hka, hkb]; norm_num)
  · rintro (h | ⟨h, _⟩)
    · rw [hka, hkb] at h
      omega
    · rw [hkb, hka] at h
      omega

/-- Witness for the amended C6 at two concrete records: the ordinary record
precedes the AOI-index record and never the other way around. -/
theorem C6_display_order_witness :
    summaryKeyLe ⟨"hydro", "Hydro", "wfs", true, "Success", 5⟩
        ⟨SNRC_INDEX_ID, "AOI Extent", "index_gpkg", true, "Success", 0⟩ ∧
    ¬ summaryKeyLe ⟨SNRC_INDEX_ID, "AOI Extent", "index_gpkg", true, "Success", 0⟩
        ⟨"hydro", "Hydro", "wfs", true, "Success", 5⟩ :=
  (C6_display_order []).2.2
    ⟨"hydro", "Hydro", "wfs", true, "Success", 5⟩
    ⟨SNRC_INDEX_ID, "AOI Extent", "index_gpkg", true, "Success", 0⟩
    (by decide) rfl
